import Mathlib

/-!
Verification of the core argument-handling module of `rgb-contracts`
(`src/cli/src/args.rs`): ledger ("stock") persistence, wallet binding and
resolver selection.

The Rust code is shallowly embedded: the filesystem state at the stock path
is an explicit `World` record threaded through the operations; external
collaborators (the `rgbstd` stock codec, the `bpwallet` runtime constructor,
the `rgb` resolver clients) are modelled from their documented behaviour and,
where construction can fail or a backend reports a network, parameterised by
an explicit oracle.  Filesystem primitives (`create_dir_all`, `store`) are
modelled as always succeeding: the model injects no spurious I/O faults.
-/

/-- Target network identifier (mainnet, testnets, ...). -/
inductive Network where
  | mainnet
  | testnet3
  | signet
  | regtest
  deriving DecidableEq, Repr

/-- Modelled from the spec: the ledger ("stock") is the persisted record of
schemata, contract history and witnesses.  Its internal structure is opaque
to this module; we model it by its content lists so that structural equality
is decidable. -/
structure Stock where
  schemata : List Nat
  contracts : List Nat
  deriving DecidableEq, Repr

/-- `Stock::default()`: the empty ledger created on first run. -/
def Stock.default : Stock := ⟨[], []⟩

/-- I/O error kinds; only `NotFound` is distinguished by the code under
verification. -/
inductive IoErrorKind where
  | notFound
  | other (code : Nat)
  deriving DecidableEq, Repr

/-- `strict_types::encoding::DecodeError` (the cases relevant here): an I/O
failure during decoding, or a data-level decoding failure. -/
inductive DecodeError where
  | io (kind : IoErrorKind)
  | dataError (msg : String)
  deriving DecidableEq, Repr

/-- `strict_types::encoding::DeserializeError`. -/
inductive DeserializeError where
  | decode (e : DecodeError)
  | integrity (msg : String)
  deriving DecidableEq, Repr

/-- `rgb::WalletError` (the variants relevant here).  `resolver` carries the
message produced by resolver selection/construction (`WalletError::Resolver`);
`invalidNetwork` is the distinct variant produced by the resolver network
check, modelled from the spec. -/
inductive WalletError where
  | deserialize (e : DeserializeError)
  | io (kind : IoErrorKind)
  | resolver (msg : String)
  | invalidNetwork (expected found : Network)
  | bp (msg : String)
  deriving DecidableEq, Repr

/-- Contents of the ledger file at the stock path: either a validly encoded
stock, or bytes whose decoding produces the given error. -/
inductive FileData where
  | valid (s : Stock)
  | corrupt (e : DeserializeError)
  deriving DecidableEq, Repr

/-- Filesystem state at the stock path. -/
structure FS where
  dirExists : Bool
  ledger : Option FileData
  deriving DecidableEq, Repr

/-- The world threaded through the operations: the filesystem at the stock
path, a count of ledger-file loads issued (for the no-re-read property), and
the diagnostic log written to stderr. -/
structure World where
  fs : FS
  ledgerLoads : Nat
  log : List String
  deriving DecidableEq, Repr

/-- Append a diagnostic line. -/
def World.logMsg (w : World) (m : String) : World :=
  { w with log := w.log ++ [m] }

/-- `Stock::load(path)`: read and decode the ledger file.  A missing file
yields `DeserializeError::Decode(DecodeError::Io(NotFound))`.  Every load is
counted. -/
def Stock.load (w : World) : Except DeserializeError Stock × World :=
  let w1 := { w with ledgerLoads := w.ledgerLoads + 1 }
  match w.fs.ledger with
  | none => (.error (.decode (.io .notFound)), w1)
  | some (.valid s) => (.ok s, w1)
  | some (.corrupt e) => (.error e, w1)

/-- `stock.store(path)`: persist the stock to the ledger file. -/
def Stock.store (s : Stock) (w : World) : World :=
  { w with fs := { w.fs with ledger := some (.valid s) } }

/-- `fs::create_dir_all(path)`: ensure the directory exists (idempotent). -/
def createDirAll (w : World) : World :=
  { w with fs := { w.fs with dirExists := true } }

/-- `XpubDerivable`: an extended public key specification, opaque here. -/
abbrev XpubDerivable := String

/-- `rgb::TapretKey`: single-key taproot-commitment descriptor wrapper. -/
structure TapretKey where
  key : XpubDerivable
  deriving DecidableEq, Repr

def TapretKey.from (k : XpubDerivable) : TapretKey := ⟨k⟩

/-- `bpstd::Wpkh`: witness-public-key-hash descriptor wrapper. -/
structure Wpkh where
  key : XpubDerivable
  deriving DecidableEq, Repr

def Wpkh.from (k : XpubDerivable) : Wpkh := ⟨k⟩

/-- `rgb::RgbDescr`: the descriptor variants supported by the CLI. -/
inductive RgbDescr where
  | tapretKeyOnly (t : TapretKey)
  | wpkh (w : Wpkh)
  deriving DecidableEq, Repr

/-- `DescrRgbOpts`: the two mutually exclusive descriptor CLI flags. -/
structure DescrRgbOpts where
  tapret_key_only : Option XpubDerivable
  wpkh : Option XpubDerivable
  deriving DecidableEq, Repr

/-- `DescriptorOpts::is_some` for `DescrRgbOpts`. -/
def DescrRgbOpts.is_some (o : DescrRgbOpts) : Bool :=
  o.tapret_key_only.isSome || o.wpkh.isSome

/-- `DescriptorOpts::descriptor` for `DescrRgbOpts`. -/
def DescrRgbOpts.descriptor (o : DescrRgbOpts) : Option RgbDescr :=
  (((o.tapret_key_only.map TapretKey.from).map RgbDescr.tapretKeyOnly).or
    ((o.wpkh.map Wpkh.from).map RgbDescr.wpkh))

/-- `ResolverOpt` (from `bpwallet::cli`): the three optional backend URLs. -/
structure ResolverOpt where
  electrum : Option String
  esplora : Option String
  mempool : Option String
  deriving DecidableEq, Repr

/-- `GeneralOpts` (from `bpwallet::cli`): base directory and network. -/
structure GeneralOpts where
  baseDir : String
  network : Network
  deriving DecidableEq, Repr

/-- `RgbArgs` (flattened through its `Deref` to `BpArgs`): the fields the
code under verification reads. -/
structure RgbArgs where
  verbose : Nat
  general : GeneralOpts
  resolverOpt : ResolverOpt
  wallet : DescrRgbOpts
  deriving DecidableEq, Repr

/-- The `NotFound` test of `load_stock`:
`matches!(err, WalletError::Deserialize(DeserializeError::Decode(DecodeError::Io(e))) if e.kind() == ErrorKind::NotFound)`. -/
def isNotFound : WalletError → Bool
  | .deserialize (.decode (.io .notFound)) => true
  | _ => false

/-- `RgbArgs::load_stock`: load the stock from the given path, creating a
fresh default stock (directory + file) when the file is absent; any other
load failure is propagated unchanged. -/
def RgbArgs.load_stock (a : RgbArgs) (w : World) : Except WalletError Stock × World :=
  let w := if a.verbose > 1 then w.logMsg "Loading stock ... " else w
  match Stock.load w with
  | (.ok s, w) => (.ok s, w)
  | (.error derr, w) =>
    let err := WalletError.deserialize derr
    if isNotFound err then
      let w := if a.verbose > 1 then w.logMsg "stock file is absent, creating a new one ... " else w
      let stock := Stock.default
      let w := createDirAll w
      let w := Stock.store stock w
      let w := if a.verbose > 1 then w.logMsg "success" else w
      (.ok stock, w)
    else
      let w := w.logMsg "stock file is damaged, failing"
      (.error err, w)

/-- `rgbstd::StoredStock`: a stock attached to its on-disk path. -/
structure StoredStock where
  stockPath : String
  stock : Stock
  deriving DecidableEq, Repr

/-- `StoredStock::attach`. -/
def StoredStock.attach (path : String) (s : Stock) : StoredStock := ⟨path, s⟩

/-- Modelled from the spec: the detached in-memory state of the wallet
runtime, opaque to this module. -/
structure WalletState where
  id : Nat
  deriving DecidableEq, Repr

/-- Modelled from the spec: the wallet runtime produced by
`BpArgs::bp_runtime`, exposing its storage path and its detachable state. -/
structure WalletRuntime where
  path : String
  state : WalletState
  deriving DecidableEq, Repr

/-- `wallet.detach()`. -/
def WalletRuntime.detach (rt : WalletRuntime) : WalletState := rt.state

/-- `bpwallet::cli::Config`, opaque to this module. -/
structure Config where
  id : Nat
  deriving DecidableEq, Repr

/-- `rgb::StoredWallet`: the composite handle binding the stock path, the
wallet path, the live stock and the detached wallet state. -/
structure StoredWallet where
  stockPath : String
  walletPath : String
  stock : Stock
  wallet : WalletState
  deriving DecidableEq, Repr

/-- `StoredWallet::attach`. -/
def StoredWallet.attach (stockPath walletPath : String) (s : Stock)
    (ws : WalletState) : StoredWallet :=
  ⟨stockPath, walletPath, s, ws⟩

/-- Environment for the external `bpwallet` runtime constructor
(`self.inner.bp_runtime::<RgbDescr>(config)`), which manages its own wallet
files and never touches the ledger file. -/
structure Env where
  bpRuntime : RgbArgs → Config → Except WalletError WalletRuntime

/-- `RgbArgs::rgb_stock`. -/
def RgbArgs.rgb_stock (a : RgbArgs) (w : World) :
    Except WalletError StoredStock × World :=
  let stock_path := a.general.baseDir
  match a.load_stock w with
  | (.ok stock, w) => (.ok (StoredStock.attach stock_path stock), w)
  | (.error e, w) => (.error e, w)

/-- `RgbArgs::rgb_wallet_from_stock`: bind an already-loaded stock with a
freshly constructed wallet runtime.  Issues no ledger load. -/
def RgbArgs.rgb_wallet_from_stock (env : Env) (a : RgbArgs) (config : Config)
    (stock : Stock) (w : World) : Except WalletError StoredWallet × World :=
  let stock_path := a.general.baseDir
  match env.bpRuntime a config with
  | .error e => (.error e, w)
  | .ok wallet =>
    let wallet_path := wallet.path
    (.ok (StoredWallet.attach stock_path wallet_path stock wallet.detach), w)

/-- `RgbArgs::rgb_wallet`: load the stock from the base directory, then bind
it. -/
def RgbArgs.rgb_wallet (env : Env) (a : RgbArgs) (config : Config)
    (w : World) : Except WalletError StoredWallet × World :=
  let stock_path := a.general.baseDir
  let _ := stock_path
  match a.load_stock w with
  | (.ok stock, w) => a.rgb_wallet_from_stock env config stock w
  | (.error e, w) => (.error e, w)

/-- The three backend kinds. -/
inductive Backend where
  | electrum
  | esplora
  | mempool
  deriving DecidableEq, Repr

/-- Modelled from the spec: a resolver client over one blockchain-data
backend.  `network` is the network the backend reports; `blocking` records
that the client was built by a blocking constructor. -/
structure AnyResolver where
  backend : Backend
  url : String
  network : Network
  blocking : Bool
  deriving DecidableEq, Repr

/-- Oracle describing the remote backends: which network (if any) the
backend of the given kind at the given URL reports; `none` means the
blocking constructor fails to connect. -/
def Oracle := Backend → String → Option Network

/-- Modelled from the spec: `AnyResolver::electrum_blocking(url, None)`. -/
def AnyResolver.electrum_blocking (oracle : Oracle) (url : String) :
    Except String AnyResolver :=
  match oracle .electrum url with
  | some n => .ok ⟨.electrum, url, n, true⟩
  | none => .error "electrum connection failure"

/-- Modelled from the spec: `AnyResolver::esplora_blocking(url, None)`. -/
def AnyResolver.esplora_blocking (oracle : Oracle) (url : String) :
    Except String AnyResolver :=
  match oracle .esplora url with
  | some n => .ok ⟨.esplora, url, n, true⟩
  | none => .error "esplora connection failure"

/-- Modelled from the spec: `AnyResolver::mempool_blocking(url, None)`. -/
def AnyResolver.mempool_blocking (oracle : Oracle) (url : String) :
    Except String AnyResolver :=
  match oracle .mempool url with
  | some n => .ok ⟨.mempool, url, n, true⟩
  | none => .error "mempool connection failure"

/-- Modelled from the spec: `resolver.check(network)` validates that the
resolver's observed network matches the configured one; mismatch is a
distinct error from the arity error. -/
def AnyResolver.check (r : AnyResolver) (net : Network) :
    Except WalletError Unit :=
  if r.network = net then .ok ()
  else .error (.invalidNetwork net r.network)

/-- The arity error message of `RgbArgs::resolver` (the `s!` literal with
its line continuation folded, as Rust does). -/
def noResolverMsg : String :=
  " - error: no transaction resolver is specified; use either --esplora or --electrum argument"

/-- `RgbArgs::resolver`: select exactly one backend, construct its blocking
client, then check it against the configured network. -/
def resolver (oracle : Oracle) (a : RgbArgs) : Except WalletError AnyResolver :=
  let constructed : Except String AnyResolver :=
    match a.resolverOpt.esplora, a.resolverOpt.electrum, a.resolverOpt.mempool with
    | none, some url, none => AnyResolver.electrum_blocking oracle url
    | some url, none, none => AnyResolver.esplora_blocking oracle url
    | none, none, some url => AnyResolver.mempool_blocking oracle url
    | _, _, _ => .error noResolverMsg
  match constructed.mapError WalletError.resolver with
  | .error e => .error e
  | .ok r =>
    match r.check a.general.network with
    | .error e => .error e
    | .ok _ => .ok r

/-- Number of resolver endpoints that are set. -/
def ResolverOpt.setCount (r : ResolverOpt) : Nat :=
  (if r.electrum.isSome then 1 else 0) +
    (if r.esplora.isSome then 1 else 0) +
    (if r.mempool.isSome then 1 else 0)

/-- The unique selected endpoint, when exactly one is set (mirrors the match
arms of `RgbArgs::resolver`). -/
def ResolverOpt.selected (r : ResolverOpt) : Option (Backend × String) :=
  match r.esplora, r.electrum, r.mempool with
  | none, some url, none => some (.electrum, url)
  | some url, none, none => some (.esplora, url)
  | none, none, some url => some (.mempool, url)
  | _, _, _ => none

/-- Result of a Rust function that may panic instead of returning. -/
inductive PanicOr (α : Type) where
  | panicked (msg : String)
  | returned (a : α)
  deriving DecidableEq, Repr

/-- Whether the call returned a value (as opposed to panicking). -/
def PanicOr.returnsValue : PanicOr α → Bool
  | .panicked _ => false
  | .returned _ => true

/-- `impl Default for RgbArgs`: the body is `unreachable!()`, which
unconditionally panics. -/
def RgbArgs.defaultImpl : PanicOr RgbArgs :=
  .panicked "internal error: entered unreachable code"

/-- The connection-failure message of the modelled blocking constructors. -/
def connectMsg : Backend → String
  | .electrum => "electrum connection failure"
  | .esplora => "esplora connection failure"
  | .mempool => "mempool connection failure"

/-! ## Concrete sample values used by witnesses -/

/-- A concrete argument record (quiet verbosity, mainnet, no endpoints). -/
def sampleArgs : RgbArgs :=
  ⟨0, ⟨"/data/rgb", .mainnet⟩, ⟨none, none, none⟩, ⟨none, none⟩⟩

/-- A world whose stock directory and ledger file are absent. -/
def absentWorld : World := ⟨⟨false, none⟩, 0, []⟩

/-- A world whose ledger file exists but fails to decode with an
integrity error. -/
def corruptWorld : World :=
  ⟨⟨true, some (.corrupt (.integrity "checksum"))⟩, 0, []⟩

/-- A concrete configuration. -/
def sampleConfig : Config := ⟨0⟩

/-- A concrete wallet-runtime environment whose constructor succeeds and is
independent of the argument record. -/
def sampleEnv : Env := ⟨fun _ _ => .ok ⟨"/data/wallet", ⟨7⟩⟩⟩

/-- A concrete backend oracle: every backend at every URL reports mainnet. -/
def mainnetOracle : Oracle := fun _ _ => some .mainnet

/-- A concrete backend oracle: every backend at every URL reports signet. -/
def signetOracle : Oracle := fun _ _ => some .signet

/-- A concrete argument record with exactly the electrum endpoint set. -/
def electrumArgs : RgbArgs :=
  ⟨0, ⟨"/data/rgb", .mainnet⟩, ⟨some "tcp://electrum.example:50001", none, none⟩,
    ⟨none, none⟩⟩

/-! ## Characterisation lemmas -/

/-- Pure characterisation (proved below) of the result of `load_stock` as a
function of the ledger-file contents alone. -/
def stockResult : Option FileData → Except WalletError Stock
  | none => .ok Stock.default
  | some (.valid s) => .ok s
  | some (.corrupt e) =>
    if isNotFound (.deserialize e) then .ok Stock.default
    else .error (.deserialize e)

/-- Pure characterisation (proved below) of the filesystem state after
`load_stock`. -/
def fsAfter (fs : FS) : FS :=
  match fs.ledger with
  | none => ⟨true, some (.valid Stock.default)⟩
  | some (.valid _) => fs
  | some (.corrupt e) =>
    if isNotFound (.deserialize e) then ⟨true, some (.valid Stock.default)⟩
    else fs

/-- `load_stock` returns `stockResult` of the ledger file, leaves the
filesystem in state `fsAfter`, and issues exactly one ledger load; none of
these depend on the verbosity level. -/
theorem load_stock_characterization (a : RgbArgs) (w : World) :
    (a.load_stock w).1 = stockResult w.fs.ledger ∧
    (a.load_stock w).2.fs = fsAfter w.fs ∧
    (a.load_stock w).2.ledgerLoads = w.ledgerLoads + 1 := by
  cases hledger : w.fs.ledger with
  | none =>
    by_cases hv : a.verbose > 1 <;>
      simp [RgbArgs.load_stock, Stock.load, World.logMsg, createDirAll, Stock.store,
        isNotFound, stockResult, fsAfter, hledger, hv]
  | some fd =>
    cases fd with
    | valid s =>
      by_cases hv : a.verbose > 1 <;>
        simp [RgbArgs.load_stock, Stock.load, World.logMsg, createDirAll, Stock.store,
          isNotFound, stockResult, fsAfter, hledger, hv]
    | corrupt e =>
      by_cases hv : a.verbose > 1 <;>
        by_cases hnf : isNotFound (.deserialize e) = true <;>
          simp [RgbArgs.load_stock, Stock.load, World.logMsg, createDirAll, Stock.store,
            stockResult, fsAfter, hledger, hv, hnf]

/-- `isNotFound` holds exactly on the distinguished not-found error shape. -/
theorem isNotFound_eq_true_iff (x : WalletError) :
    isNotFound x = true ↔ x = .deserialize (.decode (.io .notFound)) := by
  cases x with
  | deserialize e =>
    cases e with
    | decode d =>
      cases d with
      | io k => cases k <;> simp [isNotFound]
      | dataError m => simp [isNotFound]
    | integrity m => simp [isNotFound]
  | io k => simp [isNotFound]
  | resolver m => simp [isNotFound]
  | invalidNetwork x y => simp [isNotFound]
  | bp m => simp [isNotFound]

/-! ## Claim theorems -/

/-- C1: for every path whose ledger file is absent, `load_stock` succeeds
twice in a row, both calls yield the structurally equal default ledger, the
second call leaves the filesystem exactly as the first left it (no
additional file; directory re-creation is a no-op), and the first call
created the directory and the default ledger file. -/
theorem load_stock_twice_on_absent (a : RgbArgs) (w : World)
    (h : w.fs.ledger = none) :
    (a.load_stock w).1 = .ok Stock.default ∧
    (a.load_stock (a.load_stock w).2).1 = .ok Stock.default ∧
    (a.load_stock (a.load_stock w).2).2.fs = (a.load_stock w).2.fs ∧
    (a.load_stock w).2.fs = ⟨true, some (.valid Stock.default)⟩ := by
  obtain ⟨h1, h2, -⟩ := load_stock_characterization a w
  obtain ⟨g1, g2, -⟩ := load_stock_characterization a (a.load_stock w).2
  have hfs : (a.load_stock w).2.fs = ⟨true, some (.valid Stock.default)⟩ := by
    rw [h2]; simp [fsAfter, h]
  refine ⟨?_, ?_, ?_, hfs⟩
  · rw [h1, h]; rfl
  · rw [g1, hfs]; simp [stockResult]
  · rw [g2, hfs]; simp [fsAfter]

/-- Witness for C1 at a concrete absent-file world. -/
theorem load_stock_twice_on_absent_witness :
    absentWorld.fs.ledger = none ∧
    ((sampleArgs.load_stock absentWorld).1 = .ok Stock.default ∧
      (sampleArgs.load_stock (sampleArgs.load_stock absentWorld).2).1 = .ok Stock.default ∧
      (sampleArgs.load_stock (sampleArgs.load_stock absentWorld).2).2.fs =
        (sampleArgs.load_stock absentWorld).2.fs ∧
      (sampleArgs.load_stock absentWorld).2.fs = ⟨true, some (.valid Stock.default)⟩) :=
  ⟨rfl, load_stock_twice_on_absent sampleArgs absentWorld rfl⟩

/-- C2: when the ledger file exists but fails to decode with an error other
than the distinguished not-found shape, `load_stock` returns exactly that
error (wrapped only by the `From` conversion into `WalletError`, preserving
the cause) and leaves the filesystem, in particular the file's bytes,
unmodified. -/
theorem load_stock_propagates_corrupt (a : RgbArgs) (w : World)
    (e : DeserializeError) (hf : w.fs.ledger = some (.corrupt e))
    (hne : e ≠ .decode (.io .notFound)) :
    (a.load_stock w).1 = .error (.deserialize e) ∧
    (a.load_stock w).2.fs = w.fs := by
  have hnf : isNotFound (.deserialize e) = false := by
    rw [Bool.eq_false_iff]
    intro hc
    exact hne (by injection (isNotFound_eq_true_iff _).mp hc)
  obtain ⟨h1, h2, -⟩ := load_stock_characterization a w
  constructor
  · rw [h1, hf]; simp [stockResult, hnf]
  · rw [h2]; simp [fsAfter, hf, hnf]

/-- Witness for C2 at a concrete corrupt-file world. -/
theorem load_stock_propagates_corrupt_witness :
    corruptWorld.fs.ledger = some (.corrupt (.integrity "checksum")) ∧
    (DeserializeError.integrity "checksum" ≠ .decode (.io .notFound)) ∧
    ((sampleArgs.load_stock corruptWorld).1 =
        .error (.deserialize (.integrity "checksum")) ∧
      (sampleArgs.load_stock corruptWorld).2.fs = corruptWorld.fs) :=
  ⟨rfl, by decide,
    load_stock_propagates_corrupt sampleArgs corruptWorld
      (.integrity "checksum") rfl (by decide)⟩

/-- C6: `rgb_wallet` is exactly `load_stock` on the base directory followed,
on success, by `rgb_wallet_from_stock` on the loaded stock; and
`rgb_wallet_from_stock` leaves the world untouched (in particular it issues
no ledger load and does not change the filesystem). -/
theorem rgb_wallet_refines_load_then_bind (env : Env) (a : RgbArgs)
    (config : Config) (w : World) :
    (a.rgb_wallet env config w =
      match a.load_stock w with
      | (.ok stock, w1) => a.rgb_wallet_from_stock env config stock w1
      | (.error e, w1) => (.error e, w1)) ∧
    (∀ stock w0, (a.rgb_wallet_from_stock env config stock w0).2 = w0 ∧
      (a.rgb_wallet_from_stock env config stock w0).2.ledgerLoads =
        w0.ledgerLoads) := by
  constructor
  · rfl
  · intro stock w0
    unfold RgbArgs.rgb_wallet_from_stock
    cases env.bpRuntime a config <;> simp

/-- C7: on a successful runtime construction, the handle returned by
`rgb_wallet_from_stock` is exactly the attachment of the base directory of
the one argument record, the path of the runtime constructed in the same
call, the given stock, and the runtime's detached state. -/
theorem rgb_wallet_from_stock_handle (env : Env) (a : RgbArgs)
    (config : Config) (stock : Stock) (w : World) (rt : WalletRuntime)
    (h : env.bpRuntime a config = .ok rt) :
    a.rgb_wallet_from_stock env config stock w =
      (.ok (StoredWallet.attach a.general.baseDir rt.path stock rt.detach), w) := by
  unfold RgbArgs.rgb_wallet_from_stock
  rw [h]

/-- Witness for C7 at a concrete environment. -/
theorem rgb_wallet_from_stock_handle_witness :
    sampleEnv.bpRuntime sampleArgs sampleConfig = .ok ⟨"/data/wallet", ⟨7⟩⟩ ∧
    sampleArgs.rgb_wallet_from_stock sampleEnv sampleConfig Stock.default absentWorld =
      (.ok (StoredWallet.attach sampleArgs.general.baseDir "/data/wallet"
        Stock.default (WalletRuntime.detach ⟨"/data/wallet", ⟨7⟩⟩)), absentWorld) :=
  ⟨rfl, rgb_wallet_from_stock_handle sampleEnv sampleArgs sampleConfig
    Stock.default absentWorld ⟨"/data/wallet", ⟨7⟩⟩ rfl⟩

/-- The first component of `rgb_wallet_from_stock` depends only on the
environment, the arguments, the configuration and the stock — not on the
world. -/
theorem rgb_wallet_from_stock_fst (env : Env) (a : RgbArgs) (config : Config)
    (stock : Stock) (w : World) :
    (a.rgb_wallet_from_stock env config stock w).1 =
      match env.bpRuntime a config with
      | .ok rt => .ok (StoredWallet.attach a.general.baseDir rt.path stock rt.detach)
      | .error e => .error e := by
  unfold RgbArgs.rgb_wallet_from_stock
  cases env.bpRuntime a config <;> simp

/-- Characterisation of the result of `rgb_stock`. -/
theorem rgb_stock_fst (a : RgbArgs) (w : World) :
    (a.rgb_stock w).1 =
      (stockResult w.fs.ledger).map (StoredStock.attach a.general.baseDir) := by
  have h := (load_stock_characterization a w).1
  unfold RgbArgs.rgb_stock
  cases hA : a.load_stock w with
  | mk r w1 =>
    rw [hA] at h
    have hr : r = stockResult w.fs.ledger := h
    rw [← hr]
    cases r <;> simp [Except.map]

/-- Characterisation of the result of `rgb_wallet`. -/
theorem rgb_wallet_fst (env : Env) (a : RgbArgs) (config : Config) (w : World) :
    (a.rgb_wallet env config w).1 =
      match stockResult w.fs.ledger with
      | .ok stock =>
        match env.bpRuntime a config with
        | .ok rt => .ok (StoredWallet.attach a.general.baseDir rt.path stock rt.detach)
        | .error e => .error e
      | .error e => .error e := by
  have h := (load_stock_characterization a w).1
  unfold RgbArgs.rgb_wallet
  cases hA : a.load_stock w with
  | mk r w1 =>
    rw [hA] at h
    have hr : r = stockResult w.fs.ledger := h
    rw [← hr]
    cases r with
    | ok s => simp [rgb_wallet_from_stock_fst]
    | error e => simp

/-- C8: the verbosity level changes neither the value/error result nor the
filesystem effect of `load_stock`, nor the results of `rgb_stock` and
`rgb_wallet` built on it (for a runtime constructor that does not itself
depend on the verbosity); it only affects the diagnostic log. -/
theorem verbosity_side_channel (a : RgbArgs) (v : Nat) (w : World)
    (env : Env) (config : Config)
    (henv : ∀ c, env.bpRuntime { a with verbose := v } c = env.bpRuntime a c) :
    (({ a with verbose := v } : RgbArgs).load_stock w).1 = (a.load_stock w).1 ∧
    (({ a with verbose := v } : RgbArgs).load_stock w).2.fs =
      (a.load_stock w).2.fs ∧
    (({ a with verbose := v } : RgbArgs).load_stock w).2.ledgerLoads =
      (a.load_stock w).2.ledgerLoads ∧
    (({ a with verbose := v } : RgbArgs).rgb_stock w).1 = (a.rgb_stock w).1 ∧
    (({ a with verbose := v } : RgbArgs).rgb_wallet env config w).1 =
      (a.rgb_wallet env config w).1 := by
  obtain ⟨h1, h2, h3⟩ := load_stock_characterization { a with verbose := v } w
  obtain ⟨g1, g2, g3⟩ := load_stock_characterization a w
  refine ⟨?_, ?_, ?_, ?_, ?_⟩
  · rw [h1, g1]
  · rw [h2, g2]
  · rw [h3, g3]
  · rw [rgb_stock_fst, rgb_stock_fst]
  · rw [rgb_wallet_fst, rgb_wallet_fst, henv]

/-- Witness for C8: verbosity 3 versus verbosity 0 on a corrupt-file world. -/
theorem verbosity_side_channel_witness :
    (({ sampleArgs with verbose := 3 } : RgbArgs).load_stock corruptWorld).1 =
      (sampleArgs.load_stock corruptWorld).1 ∧
    (({ sampleArgs with verbose := 3 } : RgbArgs).load_stock corruptWorld).2.fs =
      (sampleArgs.load_stock corruptWorld).2.fs ∧
    (({ sampleArgs with verbose := 3 } : RgbArgs).load_stock corruptWorld).2.ledgerLoads =
      (sampleArgs.load_stock corruptWorld).2.ledgerLoads ∧
    (({ sampleArgs with verbose := 3 } : RgbArgs).rgb_stock corruptWorld).1 =
      (sampleArgs.rgb_stock corruptWorld).1 ∧
    (({ sampleArgs with verbose := 3 } : RgbArgs).rgb_wallet sampleEnv sampleConfig corruptWorld).1 =
      (sampleArgs.rgb_wallet sampleEnv sampleConfig corruptWorld).1 :=
  verbosity_side_channel sampleArgs 3 corruptWorld sampleEnv sampleConfig
    (fun _ => rfl)

/-- When exactly one endpoint is selected, `resolver` is construction of the
matching blocking client followed by the network check. -/
theorem resolver_constructed_eq (oracle : Oracle) (a : RgbArgs) (b : Backend)
    (url : String) (hsel : a.resolverOpt.selected = some (b, url)) :
    resolver oracle a =
      match oracle b url with
      | none => .error (.resolver (connectMsg b))
      | some n =>
        if n = a.general.network then .ok ⟨b, url, n, true⟩
        else .error (.invalidNetwork a.general.network n) := by
  obtain ⟨v, g, ⟨el, es, mp⟩, wo⟩ := a
  cases es with
  | none =>
    cases el with
    | none =>
      cases mp with
      | none => simp [ResolverOpt.selected] at hsel
      | some u =>
        simp only [ResolverOpt.selected, Option.some.injEq, Prod.mk.injEq] at hsel
        obtain ⟨hb, hu⟩ := hsel
        subst hb; subst hu
        cases ho : oracle Backend.mempool u with
        | none =>
          simp [resolver, AnyResolver.mempool_blocking, ho, Except.mapError, connectMsg]
        | some n =>
          by_cases hn : n = g.network <;>
            simp [resolver, AnyResolver.mempool_blocking, AnyResolver.check, ho, hn,
              Except.mapError]
    | some u =>
      cases mp with
      | none =>
        simp only [ResolverOpt.selected, Option.some.injEq, Prod.mk.injEq] at hsel
        obtain ⟨hb, hu⟩ := hsel
        subst hb; subst hu
        cases ho : oracle Backend.electrum u with
        | none =>
          simp [resolver, AnyResolver.electrum_blocking, ho, Except.mapError, connectMsg]
        | some n =>
          by_cases hn : n = g.network <;>
            simp [resolver, AnyResolver.electrum_blocking, AnyResolver.check, ho, hn,
              Except.mapError]
      | some u2 => simp [ResolverOpt.selected] at hsel
  | some u =>
    cases el with
    | none =>
      cases mp with
      | none =>
        simp only [ResolverOpt.selected, Option.some.injEq, Prod.mk.injEq] at hsel
        obtain ⟨hb, hu⟩ := hsel
        subst hb; subst hu
        cases ho : oracle Backend.esplora u with
        | none =>
          simp [resolver, AnyResolver.esplora_blocking, ho, Except.mapError, connectMsg]
        | some n =>
          by_cases hn : n = g.network <;>
            simp [resolver, AnyResolver.esplora_blocking, AnyResolver.check, ho, hn,
              Except.mapError]
      | some u2 => simp [ResolverOpt.selected] at hsel
    | some u2 =>
      cases mp with
      | none => simp [ResolverOpt.selected] at hsel
      | some u3 => simp [ResolverOpt.selected] at hsel

/-- C3: whenever the number of set endpoints is not exactly one (zero, two
or three set), `resolver` fails with the `Resolver` error kind carrying the
one fixed arity message, identically for every failing shape. -/
theorem resolver_arity_uniform (oracle : Oracle) (a : RgbArgs)
    (h : a.resolverOpt.setCount ≠ 1) :
    resolver oracle a = .error (.resolver noResolverMsg) := by
  obtain ⟨v, g, ⟨el, es, mp⟩, wo⟩ := a
  cases el <;> cases es <;> cases mp <;>
    simp_all [resolver, ResolverOpt.setCount, Except.mapError]

/-- Witness for C3 at the zero-endpoint configuration. -/
theorem resolver_arity_uniform_witness :
    sampleArgs.resolverOpt.setCount ≠ 1 ∧
    resolver mainnetOracle sampleArgs = .error (.resolver noResolverMsg) :=
  ⟨by decide, resolver_arity_uniform mainnetOracle sampleArgs (by decide)⟩

/-- C4: with exactly one endpoint set, `resolver` returns a blocking client
of the matching backend kind bound to that URL precisely when the backend
reports the configured network, and any returned resolver reports exactly
the configured network. -/
theorem resolver_exactly_one_ok (oracle : Oracle) (a : RgbArgs) (b : Backend)
    (url : String) (hsel : a.resolverOpt.selected = some (b, url)) :
    (resolver oracle a = .ok ⟨b, url, a.general.network, true⟩ ↔
      oracle b url = some a.general.network) ∧
    (∀ r, resolver oracle a = .ok r → r = ⟨b, url, a.general.network, true⟩) := by
  have hres := resolver_constructed_eq oracle a b url hsel
  cases ho : oracle b url with
  | none =>
    rw [ho] at hres
    have hres2 : resolver oracle a = .error (.resolver (connectMsg b)) := by
      rw [hres]
    refine ⟨?_, ?_⟩
    · rw [hres2]; simp
    · intro r hr
      rw [hres2] at hr
      simp at hr
  | some n =>
    rw [ho] at hres
    by_cases hn : n = a.general.network
    · subst hn
      have hres2 : resolver oracle a = .ok ⟨b, url, a.general.network, true⟩ := by
        rw [hres]; simp
      refine ⟨?_, ?_⟩
      · rw [hres2]; simp
      · intro r hr
        rw [hres2] at hr
        exact (Except.ok.inj hr).symm
    · have hres2 : resolver oracle a =
          .error (.invalidNetwork a.general.network n) := by
        rw [hres]; simp [hn]
      refine ⟨?_, ?_⟩
      · rw [hres2]; simp [hn]
      · intro r hr
        rw [hres2] at hr
        simp at hr

/-- Witness for C4 at an electrum-only configuration on mainnet. -/
theorem resolver_exactly_one_ok_witness :
    electrumArgs.resolverOpt.selected =
      some (Backend.electrum, "tcp://electrum.example:50001") ∧
    mainnetOracle Backend.electrum "tcp://electrum.example:50001" =
      some electrumArgs.general.network ∧
    resolver mainnetOracle electrumArgs =
      .ok ⟨Backend.electrum, "tcp://electrum.example:50001",
        electrumArgs.general.network, true⟩ :=
  ⟨rfl, rfl,
    (resolver_exactly_one_ok mainnetOracle electrumArgs Backend.electrum
      "tcp://electrum.example:50001" rfl).1.mpr rfl⟩

/-- C5: with exactly one endpoint set whose backend reports a different
network than configured, `resolver` fails with the network-mismatch error,
which is a distinct error kind from the `Resolver` arity variant. -/
theorem resolver_network_mismatch (oracle : Oracle) (a : RgbArgs) (b : Backend)
    (url : String) (n : Network) (hsel : a.resolverOpt.selected = some (b, url))
    (ho : oracle b url = some n) (hne : n ≠ a.general.network) :
    resolver oracle a = .error (.invalidNetwork a.general.network n) ∧
    ∀ msg, WalletError.invalidNetwork a.general.network n ≠ .resolver msg := by
  constructor
  · rw [resolver_constructed_eq oracle a b url hsel, ho]
    simp [hne]
  · intro msg h
    exact WalletError.noConfusion h

/-- Witness for C5: electrum endpoint configured for mainnet, backend on
signet. -/
theorem resolver_network_mismatch_witness :
    electrumArgs.resolverOpt.selected =
      some (Backend.electrum, "tcp://electrum.example:50001") ∧
    signetOracle Backend.electrum "tcp://electrum.example:50001" =
      some Network.signet ∧
    Network.signet ≠ electrumArgs.general.network ∧
    resolver signetOracle electrumArgs =
      .error (.invalidNetwork electrumArgs.general.network Network.signet) :=
  ⟨rfl, rfl, by decide,
    (resolver_network_mismatch signetOracle electrumArgs Backend.electrum
      "tcp://electrum.example:50001" Network.signet rfl rfl (by decide)).1⟩

/-- C9: descriptor selection has no default and returns the variant of the
single configured flag: with neither flag set `descriptor` is `none` and
`is_some` is `false`; with exactly the tapret flag set it is the
single-key tapret variant of that key; with exactly the wpkh flag set it is
the wpkh variant of that key. -/
theorem descriptor_mutually_exclusive (o : DescrRgbOpts) :
    (o.tapret_key_only = none → o.wpkh = none →
      o.descriptor = none ∧ o.is_some = false) ∧
    (∀ k, o.tapret_key_only = some k → o.wpkh = none →
      o.descriptor = some (.tapretKeyOnly (TapretKey.from k)) ∧
        o.is_some = true) ∧
    (∀ k, o.tapret_key_only = none → o.wpkh = some k →
      o.descriptor = some (.wpkh (Wpkh.from k)) ∧ o.is_some = true) := by
  refine ⟨?_, ?_, ?_⟩
  · intro h1 h2
    simp [DescrRgbOpts.descriptor, DescrRgbOpts.is_some, h1, h2, Option.or]
  · intro k h1 h2
    simp [DescrRgbOpts.descriptor, DescrRgbOpts.is_some, h1, h2, Option.or]
  · intro k h1 h2
    simp [DescrRgbOpts.descriptor, DescrRgbOpts.is_some, h1, h2, Option.or]

/-- Witness for C9 at a tapret-only option record. -/
theorem descriptor_mutually_exclusive_witness :
    (⟨some "xpub1", none⟩ : DescrRgbOpts).descriptor =
      some (.tapretKeyOnly (TapretKey.from "xpub1")) ∧
    (⟨some "xpub1", none⟩ : DescrRgbOpts).is_some = true :=
  (descriptor_mutually_exclusive ⟨some "xpub1", none⟩).2.1 "xpub1" rfl rfl

/-- C10: the `Default` implementation of `RgbArgs` never returns a value —
it unconditionally panics (`unreachable!`). -/
theorem default_impl_never_returns :
    RgbArgs.defaultImpl = .panicked "internal error: entered unreachable code" ∧
    RgbArgs.defaultImpl.returnsValue = false :=
  ⟨rfl, rfl⟩
